import Mathlib

/-!
Shallow embedding of the X402PoolA payment-aggregation ledger (Solidity,
contracts/X402PoolA.sol) and proofs about its specified behaviour.

Machine integers (uint256) are modelled as Nat; checked arithmetic reverts
on overflow (modelled as an error), while the single `unchecked` block in
scaleAmount wraps modulo 2^256, made explicit with `% UMAX`.  Each external
entry point is a function from its arguments and the contract state to
`Except Err ...`; an error models an EVM revert, i.e. the state is
unchanged and no external call has been made.  The bridging subsystem's
teleport call and the lazily granted allowance are recorded as explicit
events in program order, so that ordering properties are expressible.
ECDSA recovery is an abstract function supplied by an environment; the
keccak hashes of abi.encodePacked payloads are modelled by the injective
inductive `Msg`, and the used-signature set is keyed by the signature
bytes themselves (keccak of the signature is injective up to collisions).
-/

namespace X402

/-- 2^256, one more than the largest uint256 value. -/
def UMAX : Nat := 2 ^ 256

/-- keccak256 of the role name strings; modelled as distinct small tags. -/
def DEFAULT_ADMIN_ROLE : Nat := 0

def ADMIN_ROLE : Nat := 1

def CREDIT_MANAGER_ROLE : Nat := 2

def OPERATOR_ROLE : Nat := 3

/-- Revert reasons of the contract (each `require` string, the OpenZeppelin
modifier errors, and the checked-arithmetic panic). -/
inductive Err where
  | enforcedPause
  | expectedPause
  | notOwner
  | missingRole
  | badRenounceConfirmation
  | invalidTokenAddress
  | invalidRecipient
  | invalidAssetId
  | invalidDestChain
  | signatureRequired
  | invalidECDSASignature
  | invalidSignatureFromRecipient
  | signatureAlreadyUsed
  | zeroAmount
  | invalidProviderId
  | routeNotSet
  | invalidTimeout
  | insufficientCredits
  | emergencyPausedError
  | exceedsMaxCredits
  | amountExceedsMaxCredits
  | insufficientUSDhBalance
  | transferFailed
  | arithmeticOverflow
  | invalidFromDecimals
  | invalidToDecimals
  | invalidUSDh
  | invalidOwner
  | invalidAmount
  | insufficientBalance
  deriving DecidableEq, Repr

/-- Route struct: binding from (token, providerId) to bridge destination. -/
structure Route where
  assetId : Nat
  destChain : List Nat
  recipient : Nat
  set : Bool
  deriving DecidableEq, Repr

/-- The TeleportParams struct handed to ITokenGateway.teleport. -/
structure TeleportParams where
  amount : Nat
  relayerFee : Nat
  assetId : Nat
  redeem : Bool
  toAddr : Nat
  dest : List Nat
  timeout : Nat
  nativeCost : Nat
  data : List Nat
  deriving DecidableEq, Repr

/-- Hashed message payloads (keccak256 of abi.encodePacked), modelled as an
injective inductive: one constructor per packing shape used by the code. -/
inductive Msg where
  | claim (token providerId amount timeoutSeconds nonce chainid self : Nat)
  | route (token providerId assetId : Nat) (destChain : List Nat)
      (recipient chainid self : Nat)
  deriving DecidableEq, Repr

/-- Chain environment: chain id, the contract's own address, and abstract
ECDSA recovery over the eth-signed wrapping of a message hash.  `none`
models an ECDSA recovery revert on a malformed signature. -/
structure Env where
  chainid : Nat
  self : Nat
  recover : Msg → List Nat → Option Nat

/-- Events recording the externally visible steps of bulkTeleport in
program order: the ledger decrement, the lazy max allowance grant to the
gateway, and the teleport dispatch itself. -/
inductive Ev where
  | decremented (token providerId amount : Nat)
  | approved (token amount : Nat)
  | teleported (p : TeleportParams)
  deriving DecidableEq, Repr

/-- Full mutable state of the contract, together with the external ERC20
state it reads and writes (its own balances and the allowances it has
granted to the TOKEN_GATEWAY). -/
structure State where
  credits : Nat → Nat → Nat
  routes : Nat → Nat → Route
  nonces : Nat → Nat → Nat
  usedSignatures : List Nat → Bool
  maxCredits : Nat → Nat → Nat
  tokenBalances : Nat → Nat
  allowances : Nat → Nat
  usdh : Nat
  owner : Nat
  roles : Nat → Nat → Bool
  paused : Bool
  emergencyPaused : Bool

/-- Pointwise update of a doubly keyed map. -/
def upd2 {α : Type} (f : Nat → Nat → α) (a b : Nat) (v : α) : Nat → Nat → α :=
  fun x y => if x = a ∧ y = b then v else f x y

/-- Pointwise update of a singly keyed map. -/
def upd1 {κ α : Type} [DecidableEq κ] (f : κ → α) (a : κ) (v : α) : κ → α :=
  fun x => if x = a then v else f x

/-- Error projection of an Except value (none on success). -/
def errOf {α : Type} : Except Err α → Option Err
  | .error e => some e
  | .ok _ => none

/-- Value projection of an Except value (none on revert). -/
def okOf {α : Type} : Except Err α → Option α
  | .error _ => none
  | .ok a => some a

/-- State at the end of the constructor: zero balances, nonces, caps, no
routes, nothing used, unpaused, all four roles granted to the owner. -/
def initialState (usdhAddr ownerAddr : Nat) : State :=
  { credits := fun _ _ => 0
    routes := fun _ _ => { assetId := 0, destChain := [], recipient := 0, set := false }
    nonces := fun _ _ => 0
    usedSignatures := fun _ => false
    maxCredits := fun _ _ => 0
    tokenBalances := fun _ => 0
    allowances := fun _ => 0
    usdh := usdhAddr
    owner := ownerAddr
    roles := fun r a =>
      decide ((r = DEFAULT_ADMIN_ROLE ∨ r = ADMIN_ROLE ∨
               r = CREDIT_MANAGER_ROLE ∨ r = OPERATOR_ROLE) ∧ a = ownerAddr)
    paused := false
    emergencyPaused := false }

/-! ### Decimal conversion utilities (source lines 658-693) -/

/-- scaleAmount: requires both decimal counts at most 18, then identity /
unchecked multiply (wrapping mod 2^256) / flooring division. -/
def scaleAmount (amount fromDecimals toDecimals : Nat) : Except Err Nat :=
  if 18 < fromDecimals then .error .invalidFromDecimals
  else if 18 < toDecimals then .error .invalidToDecimals
  else if fromDecimals = toDecimals then .ok amount
  else if fromDecimals < toDecimals then
    .ok (amount * 10 ^ (toDecimals - fromDecimals) % UMAX)
  else .ok (amount / 10 ^ (fromDecimals - toDecimals))

/-- usdcToUSDh: 6-decimal units to 18-decimal units. -/
def usdcToUSDh (amountUSDC : Nat) : Except Err Nat := scaleAmount amountUSDC 6 18

/-- usdhToUSDC: 18-decimal units to 6-decimal units (floors). -/
def usdhToUSDC (amountUSDh : Nat) : Except Err Nat := scaleAmount amountUSDh 18 6

/-- The round trip of the spec: scaleAmount(scaleAmount(x, 6, 18), 18, 6). -/
def roundTrip (x : Nat) : Except Err Nat :=
  match usdcToUSDh x with
  | .error e => .error e
  | .ok y => usdhToUSDC y

/-- evmAddressToBytes32: bytes32(uint256(uint160(a))). -/
def evmAddressToBytes32 (a : Nat) : Nat := a % 2 ^ 160

/-! ### setRoute (source lines 340-382) -/

/-- Authorization for setRoute: ADMIN_ROLE or the Ownable owner. -/
def routeAuthorized (s : State) (sender : Nat) : Bool :=
  s.roles ADMIN_ROLE sender || decide (sender = s.owner)

/-- The configured route record written by setRoute. -/
def mkRoute (assetId : Nat) (destChain : List Nat) (recipient : Nat) : Route :=
  { assetId := assetId, destChain := destChain, recipient := recipient, set := true }

/-- setRoute: validates arguments, authorizes by role/ownership or by a
recipient signature over the SET_ROUTE message, then upserts the route. -/
def setRoute (env : Env) (sender token providerId assetId : Nat)
    (destChain : List Nat) (recipient : Nat) (signature : List Nat)
    (s : State) : Except Err State :=
  if s.paused then .error .enforcedPause
  else if token = 0 then .error .invalidTokenAddress
  else if recipient = 0 then .error .invalidRecipient
  else if assetId = 0 then .error .invalidAssetId
  else if destChain = [] then .error .invalidDestChain
  else
    let write : State :=
      { s with routes := upd2 s.routes token providerId (mkRoute assetId destChain recipient) }
    if routeAuthorized s sender then .ok write
    else if signature = [] then .error .signatureRequired
    else
      let m := Msg.route token providerId assetId destChain recipient env.chainid env.self
      match env.recover m signature with
      | none => .error .invalidECDSASignature
      | some signer =>
        if signer ≠ recipient then .error .invalidSignatureFromRecipient
        else .ok write

/-! ### postPayment (source lines 387-408) -/

/-- postPayment: validation, max-cap check, ERC20 transferFrom into the
pool (its success is an input of the model), then the credit increment.
The checked uint256 addition reverts on overflow. -/
def postPayment (sender token amount providerId : Nat) (transferOk : Bool)
    (s : State) : Except Err State :=
  if s.paused then .error .enforcedPause
  else if amount = 0 then .error .zeroAmount
  else if token = 0 then .error .invalidTokenAddress
  else if providerId = 0 then .error .invalidProviderId
  else if s.emergencyPaused then .error .emergencyPausedError
  else if UMAX ≤ s.credits token providerId + amount then .error .arithmeticOverflow
  else
    let newCredits := s.credits token providerId + amount
    if 0 < s.maxCredits token providerId ∧ s.maxCredits token providerId < newCredits then
      .error .exceedsMaxCredits
    else if transferOk = false then .error .transferFailed
    else .ok { s with
      credits := upd2 s.credits token providerId newCredits
      tokenBalances := upd1 s.tokenBalances token (s.tokenBalances token + amount) }

/-! ### bulkTeleport (source lines 415-496) -/

/-- Authorization for bulkTeleport: ADMIN_ROLE or OPERATOR_ROLE. -/
def settleAuthorized (s : State) (sender : Nat) : Bool :=
  s.roles ADMIN_ROLE sender || s.roles OPERATOR_ROLE sender

/-- The signature-authorization phase of bulkTeleport (source lines
426-453): role holders pass through untouched; otherwise the recipient
signature over the nonce-bearing claim message is verified, the signature
is marked used and the per-key nonce incremented (checked addition). -/
def bulkAuth (env : Env) (sender token providerId amount timeoutSeconds : Nat)
    (signature : List Nat) (r : Route) (s : State) : Except Err State :=
  if settleAuthorized s sender then .ok s
  else if signature = [] then .error .signatureRequired
  else
    let nonce := s.nonces token providerId
    let m := Msg.claim token providerId amount timeoutSeconds nonce env.chainid env.self
    match env.recover m signature with
    | none => .error .invalidECDSASignature
    | some signer =>
      if signer ≠ r.recipient then .error .invalidSignatureFromRecipient
      else if s.usedSignatures signature then .error .signatureAlreadyUsed
      else if UMAX ≤ nonce + 1 then .error .arithmeticOverflow
      else .ok { s with
        usedSignatures := upd1 s.usedSignatures signature true
        nonces := upd2 s.nonces token providerId (nonce + 1) }

/-- The settlement phase of bulkTeleport after authorization (source lines
454-496): validation, balance and liquidity checks, then the credit
decrement, the lazy allowance grant and the teleport dispatch, recorded
as events in program order. -/
def bulkFinish (token providerId amount timeoutSeconds : Nat) (r : Route)
    (s1 : State) : Except Err (State × List Ev) :=
  if amount = 0 then .error .zeroAmount
  else if token = 0 then .error .invalidTokenAddress
  else if providerId = 0 then .error .invalidProviderId
  else if timeoutSeconds = 0 then .error .invalidTimeout
  else if s1.credits token providerId < amount then .error .insufficientCredits
  else if s1.emergencyPaused then .error .emergencyPausedError
  else if 0 < s1.maxCredits token providerId ∧ s1.maxCredits token providerId < amount then
    .error .amountExceedsMaxCredits
  else
    match usdcToUSDh amount with
    | .error e => .error e
    | .ok usdhAmount =>
      if s1.tokenBalances s1.usdh < usdhAmount then .error .insufficientUSDhBalance
      else
        let s2 : State := { s1 with
          credits := upd2 s1.credits token providerId (s1.credits token providerId - amount) }
        let approveNeeded : Bool := s2.allowances s2.usdh < usdhAmount
        let s3 : State :=
          if approveNeeded then { s2 with allowances := upd1 s2.allowances s2.usdh (UMAX - 1) }
          else s2
        let p : TeleportParams :=
          { amount := usdhAmount, relayerFee := 0, assetId := r.assetId, redeem := false,
            toAddr := evmAddressToBytes32 r.recipient, dest := r.destChain,
            timeout := timeoutSeconds, nativeCost := 0, data := [48, 120] }
        .ok (s3, Ev.decremented token providerId amount ::
          ((if approveNeeded then [Ev.approved s2.usdh (UMAX - 1)] else []) ++
            [Ev.teleported p]))

/-- The TeleportParams value a successful bulkTeleport hands to the
gateway for a given settled amount, timeout and route. -/
def bulkParams (amount timeoutSeconds : Nat) (r : Route) : TeleportParams :=
  { amount := amount * 10 ^ 12 % UMAX, relayerFee := 0, assetId := r.assetId, redeem := false,
    toAddr := evmAddressToBytes32 r.recipient, dest := r.destChain,
    timeout := timeoutSeconds, nativeCost := 0, data := [48, 120] }

/-- bulkTeleport: pause check, route lookup, authorization phase, then the
settlement phase.  An error is an EVM revert: no state change, no events. -/
def bulkTeleport (env : Env) (sender token providerId amount timeoutSeconds : Nat)
    (signature : List Nat) (s : State) : Except Err (State × List Ev) :=
  if s.paused then .error .enforcedPause
  else
    let r := s.routes token providerId
    if r.set = false then .error .routeNotSet
    else
      match bulkAuth env sender token providerId amount timeoutSeconds signature r s with
      | .error e => .error e
      | .ok s1 => bulkFinish token providerId amount timeoutSeconds r s1

/-! ### helpers and admin functions (source lines 500-581) -/

/-- setUSDh (onlyOwner). -/
def setUSDh (sender newUsdh : Nat) (s : State) : Except Err State :=
  if sender ≠ s.owner then .error .notOwner
  else if newUsdh = 0 then .error .invalidUSDh
  else .ok { s with usdh := newUsdh }

/-- setCredits (test-only unconditional balance setter, onlyOwner). -/
def setCredits (sender token providerId amount : Nat) (s : State) : Except Err State :=
  if sender ≠ s.owner then .error .notOwner
  else if token = 0 then .error .invalidTokenAddress
  else if providerId = 0 then .error .invalidProviderId
  else .ok { s with credits := upd2 s.credits token providerId amount }

/-- setMaxCredits (ADMIN_ROLE or CREDIT_MANAGER_ROLE). -/
def setMaxCredits (sender token providerId maxAmount : Nat) (s : State) : Except Err State :=
  if (s.roles ADMIN_ROLE sender || s.roles CREDIT_MANAGER_ROLE sender) = false then
    .error .missingRole
  else if token = 0 then .error .invalidTokenAddress
  else if providerId = 0 then .error .invalidProviderId
  else .ok { s with maxCredits := upd2 s.maxCredits token providerId maxAmount }

/-- emergencyPause (onlyOwner): sets the flag and Pausable._pause, which
itself reverts when already paused. -/
def emergencyPause (sender : Nat) (s : State) : Except Err State :=
  if sender ≠ s.owner then .error .notOwner
  else if s.paused then .error .enforcedPause
  else .ok { s with paused := true, emergencyPaused := true }

/-- unpause (onlyOwner): clears the flag and Pausable._unpause, which
reverts when not paused. -/
def unpause (sender : Nat) (s : State) : Except Err State :=
  if sender ≠ s.owner then .error .notOwner
  else if s.paused = false then .error .expectedPause
  else .ok { s with paused := false, emergencyPaused := false }

/-- emergencyWithdraw (onlyOwner): moves held tokens back to the owner. -/
def emergencyWithdraw (sender token amount : Nat) (transferOk : Bool)
    (s : State) : Except Err State :=
  if sender ≠ s.owner then .error .notOwner
  else if token = 0 then .error .invalidTokenAddress
  else if amount = 0 then .error .invalidAmount
  else if s.tokenBalances token < amount then .error .insufficientBalance
  else if transferOk = false then .error .transferFailed
  else .ok { s with tokenBalances := upd1 s.tokenBalances token (s.tokenBalances token - amount) }

/-- grantCreditManagerRole (requires ADMIN_ROLE). -/
def grantCreditManagerRole (sender account : Nat) (s : State) : Except Err State :=
  if s.roles ADMIN_ROLE sender = false then .error .missingRole
  else .ok { s with roles := upd2 s.roles CREDIT_MANAGER_ROLE account true }

/-- grantOperatorRole (requires ADMIN_ROLE). -/
def grantOperatorRole (sender account : Nat) (s : State) : Except Err State :=
  if s.roles ADMIN_ROLE sender = false then .error .missingRole
  else .ok { s with roles := upd2 s.roles OPERATOR_ROLE account true }

/-- revokeCreditManagerRole (requires ADMIN_ROLE). -/
def revokeCreditManagerRole (sender account : Nat) (s : State) : Except Err State :=
  if s.roles ADMIN_ROLE sender = false then .error .missingRole
  else .ok { s with roles := upd2 s.roles CREDIT_MANAGER_ROLE account false }

/-- revokeOperatorRole (requires ADMIN_ROLE). -/
def revokeOperatorRole (sender account : Nat) (s : State) : Except Err State :=
  if s.roles ADMIN_ROLE sender = false then .error .missingRole
  else .ok { s with roles := upd2 s.roles OPERATOR_ROLE account false }

/-- AccessControl.grantRole, gated by the role admin (DEFAULT_ADMIN_ROLE
for every role of this contract). -/
def grantRole (sender role account : Nat) (s : State) : Except Err State :=
  if s.roles DEFAULT_ADMIN_ROLE sender = false then .error .missingRole
  else .ok { s with roles := upd2 s.roles role account true }

/-- AccessControl.revokeRole, gated by DEFAULT_ADMIN_ROLE. -/
def revokeRole (sender role account : Nat) (s : State) : Except Err State :=
  if s.roles DEFAULT_ADMIN_ROLE sender = false then .error .missingRole
  else .ok { s with roles := upd2 s.roles role account false }

/-- AccessControl.renounceRole: caller confirmation must be the sender. -/
def renounceRole (sender role account : Nat) (s : State) : Except Err State :=
  if account ≠ sender then .error .badRenounceConfirmation
  else .ok { s with roles := upd2 s.roles role sender false }

/-- Ownable.transferOwnership (onlyOwner, non-zero new owner). -/
def transferOwnership (sender newOwner : Nat) (s : State) : Except Err State :=
  if sender ≠ s.owner then .error .notOwner
  else if newOwner = 0 then .error .invalidOwner
  else .ok { s with owner := newOwner }

/-- Ownable.renounceOwnership (onlyOwner). -/
def renounceOwnership (sender : Nat) (s : State) : Except Err State :=
  if sender ≠ s.owner then .error .notOwner
  else .ok { s with owner := 0 }

/-! ### view functions (source lines 585-648) -/

/-- getAvailableCredits view. -/
def getAvailableCredits (s : State) (token providerId : Nat) : Nat :=
  s.credits token providerId

/-- getNonce view. -/
def getNonce (s : State) (token providerId : Nat) : Nat :=
  s.nonces token providerId

/-- getRecipient view. -/
def getRecipient (s : State) (token providerId : Nat) : Nat :=
  (s.routes token providerId).recipient

/-- canClaim view. -/
def canClaim (s : State) (token providerId claimant : Nat) : Bool :=
  (s.routes token providerId).set &&
    decide (claimant = (s.routes token providerId).recipient) &&
    decide (0 < s.credits token providerId)

/-- getClaimMessageHash view. -/
def getClaimMessageHash (env : Env) (s : State) (token providerId amount timeoutSeconds : Nat) : Msg :=
  Msg.claim token providerId amount timeoutSeconds (s.nonces token providerId) env.chainid env.self

/-- getRouteMessageHash view. -/
def getRouteMessageHash (env : Env) (token providerId assetId : Nat)
    (destChain : List Nat) (recipient : Nat) : Msg :=
  Msg.route token providerId assetId destChain recipient env.chainid env.self

/-! ### the transition system over all mutating entry points -/

/-- One external call to any state-mutating entry point of the contract,
with its caller and arguments. -/
inductive Op where
  | setRoute (sender token providerId assetId : Nat) (destChain : List Nat)
      (recipient : Nat) (signature : List Nat)
  | postPayment (sender token amount providerId : Nat) (transferOk : Bool)
  | bulkTeleport (sender token providerId amount timeoutSeconds : Nat)
      (signature : List Nat)
  | setUSDh (sender newUsdh : Nat)
  | setCredits (sender token providerId amount : Nat)
  | setMaxCredits (sender token providerId maxAmount : Nat)
  | emergencyPause (sender : Nat)
  | unpause (sender : Nat)
  | emergencyWithdraw (sender token amount : Nat) (transferOk : Bool)
  | grantCreditManagerRole (sender account : Nat)
  | grantOperatorRole (sender account : Nat)
  | revokeCreditManagerRole (sender account : Nat)
  | revokeOperatorRole (sender account : Nat)
  | grantRole (sender role account : Nat)
  | revokeRole (sender role account : Nat)
  | renounceRole (sender role account : Nat)
  | transferOwnership (sender newOwner : Nat)
  | renounceOwnership (sender : Nat)
  deriving DecidableEq

/-- Lift an event-free entry point into the evented step type. -/
def liftS (x : Except Err State) : Except Err (State × List Ev) :=
  match x with
  | .error e => .error e
  | .ok s => .ok (s, [])

/-- Small-step semantics: dispatch one call to the corresponding entry
point.  An error is a revert. -/
def step (env : Env) (op : Op) (s : State) : Except Err (State × List Ev) :=
  match op with
  | .setRoute sender token providerId assetId destChain recipient signature =>
      liftS (setRoute env sender token providerId assetId destChain recipient signature s)
  | .postPayment sender token amount providerId transferOk =>
      liftS (postPayment sender token amount providerId transferOk s)
  | .bulkTeleport sender token providerId amount timeoutSeconds signature =>
      bulkTeleport env sender token providerId amount timeoutSeconds signature s
  | .setUSDh sender newUsdh => liftS (setUSDh sender newUsdh s)
  | .setCredits sender token providerId amount =>
      liftS (setCredits sender token providerId amount s)
  | .setMaxCredits sender token providerId maxAmount =>
      liftS (setMaxCredits sender token providerId maxAmount s)
  | .emergencyPause sender => liftS (emergencyPause sender s)
  | .unpause sender => liftS (unpause sender s)
  | .emergencyWithdraw sender token amount transferOk =>
      liftS (emergencyWithdraw sender token amount transferOk s)
  | .grantCreditManagerRole sender account => liftS (grantCreditManagerRole sender account s)
  | .grantOperatorRole sender account => liftS (grantOperatorRole sender account s)
  | .revokeCreditManagerRole sender account => liftS (revokeCreditManagerRole sender account s)
  | .revokeOperatorRole sender account => liftS (revokeOperatorRole sender account s)
  | .grantRole sender role account => liftS (grantRole sender role account s)
  | .revokeRole sender role account => liftS (revokeRole sender role account s)
  | .renounceRole sender role account => liftS (renounceRole sender role account s)
  | .transferOwnership sender newOwner => liftS (transferOwnership sender newOwner s)
  | .renounceOwnership sender => liftS (renounceOwnership sender s)

/-- Transaction semantics of one call: on revert the state is unchanged
and no external interaction has taken place. -/
def runOp (env : Env) (op : Op) (s : State) : State × List Ev :=
  match step env op s with
  | .ok r => r
  | .error _ => (s, [])

/-- Transaction semantics of a sequence of calls. -/
def runTrace (env : Env) (ops : List Op) (s : State) : State :=
  ops.foldl (fun t op => (runOp env op t).1) s

/-- One successful transition between states. -/
def StepsTo (env : Env) (s s' : State) : Prop :=
  ∃ op r, step env op s = .ok r ∧ r.1 = s'

/-- Reachability through any sequence of calls (failed calls leave the
state unchanged, hence are covered by reflexivity). -/
def Reach (env : Env) : State → State → Prop :=
  Relation.ReflTransGen (StepsTo env)

/-- Calls restricted by claim C8: the two user-facing operations. -/
def userOp : Op → Bool
  | .postPayment _ _ _ _ _ => true
  | .bulkTeleport _ _ _ _ _ _ => true
  | _ => false

/-- Does one call bump the nonce of key (tk, pid)?  Exactly the
signature-authorized settlements on that key do. -/
def nonceBump (op : Op) (s : State) (tk pid : Nat) : Bool :=
  match op with
  | .bulkTeleport sender token providerId _ _ _ =>
      decide (tk = token ∧ pid = providerId) && !(settleAuthorized s sender)
  | _ => false

/-- The event trace starts with the ledger decrement, ends with the
teleport dispatch, and everything in between is an allowance grant. -/
def decrementBeforeDispatch (token providerId amount : Nat) (evs : List Ev) : Prop :=
  ∃ p mid, evs = Ev.decremented token providerId amount :: (mid ++ [Ev.teleported p])
    ∧ ∀ e ∈ mid, ∃ a b, e = Ev.approved a b

/-- Is this revert reason one of the authorization errors of the
signature path? -/
def authErr : Option Err → Bool
  | some .signatureRequired => true
  | some .invalidECDSASignature => true
  | some .invalidSignatureFromRecipient => true
  | _ => false

/-- The paused state with both pause flags cleared, as produced by a
successful unpause. -/
def unpausedTwin (s : State) : State :=
  { s with paused := false, emergencyPaused := false }

/-! ### the fixed-key deposit/settle trace model of claim C1 -/

/-- One ledger operation on the fixed key of claim C1: a deposit or a
settlement attempt, with every argument the caller controls. -/
inductive LedgerOp where
  | deposit (sender amount : Nat) (transferOk : Bool)
  | settle (sender amount timeoutSeconds : Nat) (signature : List Nat)

/-- Apply one ledger operation on key (tk, pid); returns the next state
plus the accepted deposit amount and the settled amount (zero when the
call reverted). -/
def ledgerApply (env : Env) (tk pid : Nat) (s : State) : LedgerOp → State × Nat × Nat
  | .deposit sender amount transferOk =>
    match postPayment sender tk amount pid transferOk s with
    | .ok s' => (s', amount, 0)
    | .error _ => (s, 0, 0)
  | .settle sender amount timeoutSeconds signature =>
    match bulkTeleport env sender tk pid amount timeoutSeconds signature s with
    | .ok r => (r.1, 0, amount)
    | .error _ => (s, 0, 0)

/-- Run a sequence of ledger operations, also summing the accepted deposit
amounts and the successfully settled amounts. -/
def ledgerRun (env : Env) (tk pid : Nat) (s : State) : List LedgerOp → State × Nat × Nat
  | [] => (s, 0, 0)
  | op :: rest =>
    let r1 := ledgerApply env tk pid s op
    let r2 := ledgerRun env tk pid r1.1 rest
    (r2.1, r1.2.1 + r2.2.1, r1.2.2 + r2.2.2)

/-! ### a concrete deployment used by the witnesses and counterexamples

Token 100 (a 6-decimal asset), provider id 5, bridging asset id 11,
destination chain descriptor [3], chain id 1, contract address 2,
USD.h token address 77, owner 9, an operator 33 and an outside
account 44.  Signature [7] is the recipient's claim signature (valid for
nonces 0 and 1) and signature [9] its SET_ROUTE signature; the recipient
address is 50. -/

/-- Concrete recovery oracle for the demo deployment. -/
def demoRecover : Msg → List Nat → Option Nat := fun m sig =>
  if sig = [7] ∧ (m = Msg.claim 100 5 5 60 0 1 2 ∨ m = Msg.claim 100 5 5 60 1 1 2) then some 50
  else if sig = [9] ∧ m = Msg.route 100 5 11 [3] 50 1 2 then some 50
  else none

/-- Concrete environment for the demo deployment. -/
def demoEnv : Env := { chainid := 1, self := 2, recover := demoRecover }

/-- Demo state: route configured for key (100, 5) towards recipient 50,
ten credits accumulated, ample USD.h liquidity, operator role at 33. -/
def demoState : State :=
  { initialState 77 9 with
    routes := upd2 (initialState 77 9).routes 100 5
      { assetId := 11, destChain := [3], recipient := 50, set := true }
    credits := upd2 (initialState 77 9).credits 100 5 10
    tokenBalances := upd1 (initialState 77 9).tokenBalances 77 (10 ^ 18)
    roles := fun r a =>
      decide ((r = DEFAULT_ADMIN_ROLE ∨ r = ADMIN_ROLE ∨
               r = CREDIT_MANAGER_ROLE ∨ r = OPERATOR_ROLE) ∧ a = 9) ||
        decide (r = OPERATOR_ROLE ∧ a = 33) }

/-- Demo state with an empty ledger on every key. -/
def demoStateZ : State := { demoState with credits := fun _ _ => 0 }

/-- Demo state after the owner's emergencyPause. -/
def demoPaused : State := { demoState with paused := true, emergencyPaused := true }

/-- State after account 44 performed a signature-authorized settlement of
five credits with signature [7] at nonce 0. -/
def c2AfterFirst : State :=
  (runOp demoEnv (.bulkTeleport 44 100 5 5 60 [7]) demoState).1

/-- Ledger trace for the conservation witness: one accepted deposit of
ten, one role-authorized settlement of four. -/
def c1Ops : List LedgerOp := [.deposit 44 10 true, .settle 9 4 60 []]

/-- An exact multiple of 10^12 whose 6-to-18-decimal scaling overflows
uint256. -/
def c5x : Nat := 10 ^ 12 * 2 ^ 216

/-! ## Helper lemmas -/

/-- Unfolding lemma for lifted event-free entry points. -/
theorem liftS_ok {x : Except Err State} {s' : State} {evs : List Ev}
    (h : liftS x = .ok (s', evs)) : x = .ok s' ∧ evs = [] := by
  cases x with
  | error e => simp [liftS] at h
  | ok t =>
    simp only [liftS, Except.ok.injEq, Prod.mk.injEq] at h
    exact ⟨by rw [h.1], h.2.symm⟩

/-- usdcToUSDh never reverts and wraps modulo 2^256. -/
theorem usdcToUSDh_eq (a : Nat) : usdcToUSDh a = .ok (a * 10 ^ 12 % UMAX) := rfl

/-! ## C4: scaleAmount -/

/-- C4 (counterexample): because the multiplication branch of scaleAmount
sits in an unchecked block, a 6-to-18-decimal conversion of 2^255 wraps
modulo 2^256 instead of returning the mathematical product. -/
theorem scaleAmount_overflow_counterexample :
    scaleAmount (2 ^ 255) 6 18 = .ok (2 ^ 255 * 10 ^ 12 % UMAX)
      ∧ 2 ^ 255 * 10 ^ 12 % UMAX ≠ 2 ^ 255 * 10 ^ 12 :=
  ⟨rfl, by decide⟩

/-- C4 (amended): for decimal counts at most 18, scaleAmount is the
identity on equal decimals, multiplies by 10^(to-from) reduced modulo
2^256 when scaling up (exactly the product whenever it fits in uint256),
floors a division by 10^(from-to) when scaling down, and meets the two
reference values. -/
theorem scaleAmount_spec (amount fromDecimals toDecimals : Nat)
    (hf : fromDecimals ≤ 18) (ht : toDecimals ≤ 18) :
    (fromDecimals = toDecimals → scaleAmount amount fromDecimals toDecimals = .ok amount)
    ∧ (fromDecimals < toDecimals →
        scaleAmount amount fromDecimals toDecimals
            = .ok (amount * 10 ^ (toDecimals - fromDecimals) % UMAX)
          ∧ (amount * 10 ^ (toDecimals - fromDecimals) < UMAX →
            scaleAmount amount fromDecimals toDecimals
              = .ok (amount * 10 ^ (toDecimals - fromDecimals))))
    ∧ (toDecimals < fromDecimals →
        scaleAmount amount fromDecimals toDecimals
          = .ok (amount / 10 ^ (fromDecimals - toDecimals)))
    ∧ scaleAmount 1000000 6 18 = .ok 1000000000000000000
    ∧ scaleAmount 999999999999999999 18 6 = .ok 999999 := by
  refine ⟨?_, ?_, ?_, rfl, rfl⟩
  · intro heq
    simp [scaleAmount, heq, Nat.not_lt.mpr ht]
  · intro hlt
    have h1 : scaleAmount amount fromDecimals toDecimals
        = .ok (amount * 10 ^ (toDecimals - fromDecimals) % UMAX) := by
      simp [scaleAmount, Nat.not_lt.mpr hf, Nat.not_lt.mpr ht, Nat.ne_of_lt hlt, hlt]
    exact ⟨h1, fun hsmall => by rw [h1, Nat.mod_eq_of_lt hsmall]⟩
  · intro hlt
    simp [scaleAmount, Nat.not_lt.mpr hf, Nat.not_lt.mpr ht,
      (Nat.ne_of_lt hlt).symm, Nat.not_lt.mpr (Nat.le_of_lt hlt)]

/-- C4 (witness): the two reference conversions, through scaleAmount_spec. -/
theorem scaleAmount_spec_witness :
    scaleAmount 1000000 6 18 = .ok 1000000000000000000
      ∧ scaleAmount 999999999999999999 18 6 = .ok 999999 :=
  ⟨(scaleAmount_spec 1000000 6 18 (by decide) (by decide)).2.2.2.1,
   (scaleAmount_spec 999999999999999999 18 6 (by decide) (by decide)).2.2.2.2⟩

/-! ## C5: round trip -/

/-- C5 (counterexample): the round trip fails on the exact multiple of
10^12 given by c5x, because the upward scaling wraps modulo 2^256. -/
theorem roundTrip_overflow_counterexample :
    10 ^ 12 ∣ c5x ∧ okOf (roundTrip c5x) ≠ some c5x :=
  ⟨⟨2 ^ 216, rfl⟩, by decide⟩

/-- C5 (amended): for every exact multiple of 10^12 whose 6-to-18-decimal
scaling does not overflow uint256, the scaleAmount round trip is the
identity. -/
theorem scaleAmount_roundTrip (x : Nat) (hdvd : 10 ^ 12 ∣ x)
    (hlt : x * 10 ^ 12 < UMAX) : roundTrip x = .ok x := by
  have h1 : usdcToUSDh x = .ok (x * 10 ^ 12) := by
    rw [usdcToUSDh_eq, Nat.mod_eq_of_lt hlt]
  have h2 : usdhToUSDC (x * 10 ^ 12) = .ok x := by
    have : x * 10 ^ 12 / 10 ^ 12 = x := Nat.mul_div_cancel x (by norm_num)
    simp [usdhToUSDC, scaleAmount, this]
  unfold roundTrip
  rw [h1]
  exact h2

/-- C5 (witness): the round trip at 10^12 itself. -/
theorem scaleAmount_roundTrip_witness : roundTrip (10 ^ 12) = .ok (10 ^ 12) :=
  scaleAmount_roundTrip (10 ^ 12) ⟨1, rfl⟩ (by decide)

/-- Successful setRoute calls are exactly characterized: valid arguments,
an unpaused system, role/ownership or a matching recipient signature, and
the result state only rewrites the route entry. -/
theorem setRoute_ok_shape {env : Env} {sender token providerId assetId : Nat}
    {destChain : List Nat} {recipient : Nat} {signature : List Nat} {s s' : State}
    (h : setRoute env sender token providerId assetId destChain recipient signature s = .ok s') :
    s.paused = false ∧ token ≠ 0 ∧ recipient ≠ 0 ∧ assetId ≠ 0 ∧ destChain ≠ [] ∧
    (routeAuthorized s sender = true ∨ (signature ≠ [] ∧
      env.recover (Msg.route token providerId assetId destChain recipient env.chainid env.self)
          signature = some recipient)) ∧
    s' = { s with routes := upd2 s.routes token providerId (mkRoute assetId destChain recipient) } := by
  simp only [setRoute] at h
  repeat' split at h
  all_goals simp_all

/-- Successful authorization phases are exactly: a role holder passing
through unchanged, or a fresh valid recipient signature being consumed
(marked used) with the nonce bumped. -/
theorem bulkAuth_ok_cases {env : Env} {sender token providerId amount timeoutSeconds : Nat}
    {signature : List Nat} {r : Route} {s s1 : State}
    (h : bulkAuth env sender token providerId amount timeoutSeconds signature r s = .ok s1) :
    (settleAuthorized s sender = true ∧ s1 = s) ∨
    (settleAuthorized s sender = false ∧ signature ≠ [] ∧
      env.recover (Msg.claim token providerId amount timeoutSeconds (s.nonces token providerId)
        env.chainid env.self) signature = some r.recipient ∧
      s.usedSignatures signature = false ∧
      s1 = { s with
             usedSignatures := upd1 s.usedSignatures signature true
             nonces := upd2 s.nonces token providerId (s.nonces token providerId + 1) }) := by
  simp only [bulkAuth] at h
  repeat' split at h
  all_goals simp_all

set_option maxHeartbeats 1000000 in
/-- Successful settlement phases are exactly characterized: all the
validation guards hold, the only state change is the credit decrement
plus possibly the lazy max allowance grant, and the event list is the
decrement, then the optional grant, then the teleport dispatch. -/
theorem bulkFinish_ok_shape {token providerId amount timeoutSeconds : Nat} {r : Route}
    {s1 s' : State} {evs : List Ev}
    (h : bulkFinish token providerId amount timeoutSeconds r s1 = .ok (s', evs)) :
    amount ≠ 0 ∧ token ≠ 0 ∧ providerId ≠ 0 ∧ timeoutSeconds ≠ 0 ∧
    amount ≤ s1.credits token providerId ∧ s1.emergencyPaused = false ∧
    ((s1.allowances s1.usdh < amount * 10 ^ 12 % UMAX ∧
       s' = { s1 with
              credits := upd2 s1.credits token providerId (s1.credits token providerId - amount)
              allowances := upd1 s1.allowances s1.usdh (UMAX - 1) } ∧
       evs = [Ev.decremented token providerId amount, Ev.approved s1.usdh (UMAX - 1),
              Ev.teleported (bulkParams amount timeoutSeconds r)]) ∨
     (amount * 10 ^ 12 % UMAX ≤ s1.allowances s1.usdh ∧
       s' = { s1 with
              credits := upd2 s1.credits token providerId (s1.credits token providerId - amount) } ∧
       evs = [Ev.decremented token providerId amount,
              Ev.teleported (bulkParams amount timeoutSeconds r)])) := by
  unfold bulkFinish at h
  rw [usdcToUSDh_eq] at h
  split at h
  · exact Except.noConfusion h
  split at h
  · exact Except.noConfusion h
  split at h
  · exact Except.noConfusion h
  split at h
  · exact Except.noConfusion h
  split at h
  · exact Except.noConfusion h
  split at h
  · exact Except.noConfusion h
  split at h
  · exact Except.noConfusion h
  split at h
  · exact Except.noConfusion h
  case _ y heq =>
  injection heq with hy
  subst hy
  split at h
  · exact Except.noConfusion h
  rw [Except.ok.injEq, Prod.mk.injEq] at h
  obtain ⟨rfl, rfl⟩ := h
  refine ⟨by omega, by omega, by omega, by omega, by omega, ?_, ?_⟩
  · cases hEP : s1.emergencyPaused with
    | false => rfl
    | true => exact absurd hEP ‹¬s1.emergencyPaused = true›
  · by_cases hc : s1.allowances s1.usdh < amount * 1000000000000 % UMAX
    · exact Or.inl ⟨by simpa using hc, by simp [hc], by simp [hc, bulkParams]⟩
    · exact Or.inr ⟨by simpa using Nat.le_of_not_lt hc, by simp [hc], by simp [hc, bulkParams]⟩

/-- A successful bulkTeleport decomposes into the pause check, the route
check, a successful authorization phase and a successful settlement
phase. -/
theorem bulkTeleport_ok_destruct {env : Env} {sender token providerId amount timeoutSeconds : Nat}
    {signature : List Nat} {s s' : State} {evs : List Ev}
    (h : bulkTeleport env sender token providerId amount timeoutSeconds signature s = .ok (s', evs)) :
    s.paused = false ∧ (s.routes token providerId).set = true ∧
    ∃ s1, bulkAuth env sender token providerId amount timeoutSeconds signature
            (s.routes token providerId) s = .ok s1 ∧
          bulkFinish token providerId amount timeoutSeconds (s.routes token providerId) s1
            = .ok (s', evs) := by
  simp only [bulkTeleport] at h
  repeat' split at h
  all_goals simp_all

/-- A call with no error projection succeeded. -/
theorem errOf_none {α : Type} {x : Except Err α} (h : errOf x = none) : ∃ a, x = .ok a := by
  cases x with
  | error e => simp [errOf] at h
  | ok a => exact ⟨a, rfl⟩

/-- An accepted deposit adds exactly its amount to the key's credits. -/
theorem postPayment_ok_credits {sender token amount providerId : Nat} {transferOk : Bool}
    {s s' : State} (h : postPayment sender token amount providerId transferOk s = .ok s') :
    s'.credits token providerId = s.credits token providerId + amount := by
  simp only [postPayment] at h
  repeat' split at h
  all_goals first
    | exact Except.noConfusion h
    | (rw [Except.ok.injEq] at h; subst h; simp [upd2])

/-- A successful settlement is covered by the key's credits and subtracts
exactly its amount. -/
theorem bulkTeleport_ok_credits {env : Env} {sender token providerId amount timeoutSeconds : Nat}
    {signature : List Nat} {s s' : State} {evs : List Ev}
    (h : bulkTeleport env sender token providerId amount timeoutSeconds signature s = .ok (s', evs)) :
    amount ≤ s.credits token providerId ∧
    s'.credits token providerId = s.credits token providerId - amount := by
  obtain ⟨hp, hset, s1, hauth, hfin⟩ := bulkTeleport_ok_destruct h
  have hcred1 : s1.credits = s.credits := by
    rcases bulkAuth_ok_cases hauth with ⟨_, rfl⟩ | ⟨_, _, _, _, rfl⟩ <;> rfl
  obtain ⟨_, _, _, _, hle, _, hdis⟩ := bulkFinish_ok_shape hfin
  constructor
  · rw [hcred1] at hle
    exact hle
  · rcases hdis with ⟨_, rfl, _⟩ | ⟨_, rfl, _⟩ <;> simp [upd2, hcred1]

/-! ## C1: ledger conservation -/

/-- Along any ledger trace on a fixed key, final credits plus the settled
sum equal initial credits plus the accepted deposit sum, and the settled
sum never exceeds what was available. -/
theorem ledgerRun_invariant (env : Env) (tk pid : Nat) :
    ∀ ops : List LedgerOp, ∀ s : State,
      (ledgerRun env tk pid s ops).1.credits tk pid + (ledgerRun env tk pid s ops).2.2
          = s.credits tk pid + (ledgerRun env tk pid s ops).2.1
      ∧ (ledgerRun env tk pid s ops).2.2 ≤ s.credits tk pid + (ledgerRun env tk pid s ops).2.1 := by
  intro ops
  induction ops with
  | nil => intro s; simp [ledgerRun]
  | cons op rest ih =>
    intro s
    cases op with
    | deposit sender amount transferOk =>
      cases hpp : postPayment sender tk amount pid transferOk s with
      | ok s1 =>
        have hc := postPayment_ok_credits hpp
        have hih := ih s1
        simp only [ledgerRun, ledgerApply, hpp]
        omega
      | error e =>
        have hih := ih s
        simp only [ledgerRun, ledgerApply, hpp]
        omega
    | settle sender amount timeoutSeconds signature =>
      cases hbt : bulkTeleport env sender tk pid amount timeoutSeconds signature s with
      | ok res =>
        have hpair : bulkTeleport env sender tk pid amount timeoutSeconds signature s
            = .ok (res.1, res.2) := by rw [hbt]
        have hc := bulkTeleport_ok_credits hpair
        have hih := ih res.1
        simp only [ledgerRun, ledgerApply, hbt]
        omega
      | error e =>
        have hih := ih s
        simp only [ledgerRun, ledgerApply, hbt]
        omega

/-- C1: starting from a zero balance on a fixed key, after any sequence
of accepted deposits and successful settlements the balance equals the
accepted deposit sum minus the settled sum, and that difference is never
negative; since this holds for every trace, it holds at every
intermediate state. -/
theorem ledger_balance_conservation (env : Env) (tk pid : Nat) (s : State)
    (ops : List LedgerOp) (h0 : s.credits tk pid = 0) :
    ((ledgerRun env tk pid s ops).1.credits tk pid : Int)
        = ((ledgerRun env tk pid s ops).2.1 : Int) - ((ledgerRun env tk pid s ops).2.2 : Int)
    ∧ (ledgerRun env tk pid s ops).2.2 ≤ (ledgerRun env tk pid s ops).2.1 := by
  obtain ⟨h1, h2⟩ := ledgerRun_invariant env tk pid ops s
  rw [h0] at h1 h2
  omega

/-- C1 (witness): a deposit of ten then a settlement of four on the empty
demo ledger leave six credits, with sums ten and four. -/
theorem ledger_balance_conservation_witness :
    ((ledgerRun demoEnv 100 5 demoStateZ c1Ops).1.credits 100 5 : Int)
        = ((ledgerRun demoEnv 100 5 demoStateZ c1Ops).2.1 : Int)
            - ((ledgerRun demoEnv 100 5 demoStateZ c1Ops).2.2 : Int)
    ∧ (ledgerRun demoEnv 100 5 demoStateZ c1Ops).2.2 ≤ (ledgerRun demoEnv 100 5 demoStateZ c1Ops).2.1 :=
  ledger_balance_conservation demoEnv 100 5 demoStateZ c1Ops rfl

/-! ## C3: insufficient credits -/

/-- C3 (counterexample): in a paused state the very call that requests
more than the balance is rejected with the pause error, not with the
insufficient-credits state error the claim names. -/
theorem insufficient_credits_error_shadowed_by_pause :
    demoPaused.credits 100 5 < 999
    ∧ errOf (bulkTeleport demoEnv 9 100 5 999 60 [] demoPaused) = some .enforcedPause
    ∧ errOf (bulkTeleport demoEnv 9 100 5 999 60 [] demoPaused) ≠ some .insufficientCredits :=
  ⟨by decide, rfl, by decide⟩

/-- C3 (amended): a bulkTeleport requesting more than the key's balance
never succeeds, leaves the entire state unchanged and performs no
dispatch; its error is precisely the insufficient-credits one whenever
the call is not already rejected by the pause, route, validation or
authorization guards. -/
theorem bulkTeleport_insufficient_credits_reverts
    (env : Env) (sender token providerId amount timeoutSeconds : Nat) (signature : List Nat)
    (s : State) (hgt : s.credits token providerId < amount) :
    errOf (bulkTeleport env sender token providerId amount timeoutSeconds signature s) ≠ none
    ∧ runOp env (.bulkTeleport sender token providerId amount timeoutSeconds signature) s = (s, [])
    ∧ (s.paused = false →
       (s.routes token providerId).set = true →
       token ≠ 0 → providerId ≠ 0 → timeoutSeconds ≠ 0 →
       (settleAuthorized s sender = true ∨
         (settleAuthorized s sender = false ∧ signature ≠ [] ∧
          env.recover (Msg.claim token providerId amount timeoutSeconds
              (s.nonces token providerId) env.chainid env.self) signature
            = some (s.routes token providerId).recipient ∧
          s.usedSignatures signature = false ∧ s.nonces token providerId + 1 < UMAX)) →
       errOf (bulkTeleport env sender token providerId amount timeoutSeconds signature s)
         = some .insufficientCredits) := by
  have hfail : ∀ r, bulkTeleport env sender token providerId amount timeoutSeconds signature s
      ≠ .ok r := by
    intro r hok
    have hpair : bulkTeleport env sender token providerId amount timeoutSeconds signature s
        = .ok (r.1, r.2) := by rw [hok]
    have := (bulkTeleport_ok_credits hpair).1
    omega
  refine ⟨?_, ?_, ?_⟩
  · intro hnone
    obtain ⟨r, hr⟩ := errOf_none hnone
    exact hfail r hr
  · simp only [runOp, step]
    cases hx : bulkTeleport env sender token providerId amount timeoutSeconds signature s with
    | ok r => exact absurd hx (hfail r)
    | error e => rfl
  · intro hp hset htok hpid htime hOr
    have hz : ¬amount = 0 := by omega
    simp only [bulkTeleport, hp, Bool.false_eq_true, if_false, hset]
    rcases hOr with hA | ⟨hA, hsig, hrec, hused, hnlt⟩
    · have hba : bulkAuth env sender token providerId amount timeoutSeconds signature
          (s.routes token providerId) s = .ok s := by
        simp [bulkAuth, hA]
      rw [hba]
      simp [bulkFinish, usdcToUSDh_eq, hz, htok, hpid, htime, hgt, errOf]
    · have hba : bulkAuth env sender token providerId amount timeoutSeconds signature
          (s.routes token providerId) s = .ok
            { s with
              usedSignatures := upd1 s.usedSignatures signature true
              nonces := upd2 s.nonces token providerId (s.nonces token providerId + 1) } := by
        simp [bulkAuth, hA, hsig, hrec, hused, Nat.not_le.mpr hnlt]
      rw [hba]
      simp [bulkFinish, usdcToUSDh_eq, hz, htok, hpid, htime, hgt, errOf]

/-- C3 (witness): the 999-credit request against the ten-credit demo
balance, by the owner. -/
theorem bulkTeleport_insufficient_credits_witness :
    errOf (bulkTeleport demoEnv 9 100 5 999 60 [] demoState) ≠ none
    ∧ runOp demoEnv (.bulkTeleport 9 100 5 999 60 []) demoState = (demoState, [])
    ∧ (demoState.paused = false →
       (demoState.routes 100 5).set = true →
       (100 : Nat) ≠ 0 → (5 : Nat) ≠ 0 → (60 : Nat) ≠ 0 →
       (settleAuthorized demoState 9 = true ∨
         (settleAuthorized demoState 9 = false ∧ ([] : List Nat) ≠ [] ∧
          demoEnv.recover (Msg.claim 100 5 999 60 (demoState.nonces 100 5)
              demoEnv.chainid demoEnv.self) []
            = some (demoState.routes 100 5).recipient ∧
          demoState.usedSignatures [] = false ∧ demoState.nonces 100 5 + 1 < UMAX)) →
       errOf (bulkTeleport demoEnv 9 100 5 999 60 [] demoState) = some .insufficientCredits) :=
  bulkTeleport_insufficient_credits_reverts demoEnv 9 100 5 999 60 [] demoState (by decide)

/-! ## C6: mutate before dispatch -/

/-- C6: every successful bulkTeleport emits its events in the order
ledger decrement first, then the optional allowance grant, then the one
teleport dispatch last; the balance is already decremented by the settled
amount when the dispatch happens. -/
theorem bulkTeleport_mutates_before_dispatch
    (env : Env) (sender token providerId amount timeoutSeconds : Nat) (signature : List Nat)
    (s s' : State) (evs : List Ev)
    (h : bulkTeleport env sender token providerId amount timeoutSeconds signature s = .ok (s', evs)) :
    decrementBeforeDispatch token providerId amount evs
    ∧ amount ≤ s.credits token providerId
    ∧ s'.credits token providerId = s.credits token providerId - amount := by
  have hc := bulkTeleport_ok_credits h
  obtain ⟨hp, hset, s1, hauth, hfin⟩ := bulkTeleport_ok_destruct h
  obtain ⟨_, _, _, _, _, _, hdis⟩ := bulkFinish_ok_shape hfin
  refine ⟨?_, hc.1, hc.2⟩
  rcases hdis with ⟨_, _, rfl⟩ | ⟨_, _, rfl⟩
  · exact ⟨bulkParams amount timeoutSeconds (s.routes token providerId),
      [Ev.approved s1.usdh (UMAX - 1)], by simp, by simp⟩
  · exact ⟨bulkParams amount timeoutSeconds (s.routes token providerId), [], by simp, by simp⟩

/-- C6 (witness): the owner's settlement of five credits on the demo
state. -/
theorem bulkTeleport_mutates_before_dispatch_witness :
    decrementBeforeDispatch 100 5 5 (runOp demoEnv (.bulkTeleport 9 100 5 5 60 []) demoState).2
    ∧ 5 ≤ demoState.credits 100 5
    ∧ (runOp demoEnv (.bulkTeleport 9 100 5 5 60 []) demoState).1.credits 100 5
        = demoState.credits 100 5 - 5 :=
  bulkTeleport_mutates_before_dispatch demoEnv 9 100 5 5 60 [] demoState
    (runOp demoEnv (.bulkTeleport 9 100 5 5 60 []) demoState).1
    (runOp demoEnv (.bulkTeleport 9 100 5 5 60 []) demoState).2 rfl

/-- Frame lemma over the whole mutating surface: every successful call
preserves used-signature membership, and changes the nonce of a key by
exactly one precisely on a signature-authorized settlement of that key,
leaving it untouched otherwise. -/
theorem step_ok_frame {env : Env} {op : Op} {s s' : State} {evs : List Ev}
    (h : step env op s = .ok (s', evs)) :
    (∀ σ, s.usedSignatures σ = true → s'.usedSignatures σ = true) ∧
    (∀ tk pid, s'.nonces tk pid = s.nonces tk pid + (if nonceBump op s tk pid then 1 else 0)) := by
  cases op with
  | bulkTeleport sender token providerId amount timeoutSeconds signature =>
    obtain ⟨hp, hset, s1, hauth, hfin⟩ := bulkTeleport_ok_destruct h
    obtain ⟨_, _, _, _, _, _, hdis⟩ := bulkFinish_ok_shape hfin
    have hs'u : s'.usedSignatures = s1.usedSignatures := by
      rcases hdis with ⟨_, rfl, _⟩ | ⟨_, rfl, _⟩ <;> rfl
    have hs'n : s'.nonces = s1.nonces := by
      rcases hdis with ⟨_, rfl, _⟩ | ⟨_, rfl, _⟩ <;> rfl
    rcases bulkAuth_ok_cases hauth with ⟨hA, rfl⟩ | ⟨hA, hsig, hrec, hused, rfl⟩
    · refine ⟨fun σ hσ => by rw [hs'u]; exact hσ, fun tk pid => ?_⟩
      rw [hs'n]
      simp [nonceBump, hA]
    · refine ⟨fun σ hσ => ?_, fun tk pid => ?_⟩
      · rw [hs'u]
        simp only [upd1]
        split <;> simp [hσ]
      · rw [hs'n]
        simp only [upd2, nonceBump, hA]
        by_cases h1 : tk = token ∧ pid = providerId
        · obtain ⟨rfl, rfl⟩ := h1
          simp
        · simp [h1]
  | _ =>
    all_goals
      simp only [step] at h
      obtain ⟨hx, hevs⟩ := liftS_ok h
      simp only [setRoute, postPayment, setUSDh, setCredits, setMaxCredits, emergencyPause,
        unpause, emergencyWithdraw, grantCreditManagerRole, grantOperatorRole,
        revokeCreditManagerRole, revokeOperatorRole, grantRole, revokeRole, renounceRole,
        transferOwnership, renounceOwnership] at hx
      repeat' split at hx
      all_goals first
        | exact Except.noConfusion hx
        | (rw [Except.ok.injEq] at hx; subst hx;
           exact ⟨fun σ hσ => hσ, fun tk pid => by simp [nonceBump]⟩)

/-- Used-signature membership is preserved by one successful transition. -/
theorem stepsTo_used_mono {env : Env} {s s' : State} (h : StepsTo env s s')
    (σ : List Nat) (hσ : s.usedSignatures σ = true) : s'.usedSignatures σ = true := by
  obtain ⟨op, r, hok, hr⟩ := h
  have hpair : step env op s = .ok (r.1, r.2) := by rw [hok]
  rw [← hr]
  exact (step_ok_frame hpair).1 σ hσ

/-- Used-signature membership is preserved along any reachable future:
nothing ever removes a recorded digest. -/
theorem reach_used_mono {env : Env} {s s' : State} (h : Reach env s s')
    (σ : List Nat) (hσ : s.usedSignatures σ = true) : s'.usedSignatures σ = true := by
  induction h with
  | refl => exact hσ
  | tail _ hbc ih => exact stepsTo_used_mono hbc σ ih

/-- A non-role-authorized bulkTeleport presenting a signature already in
the used set never succeeds, and the rejection is exactly the replay
error when the pause, route and recovery checks pass on a non-empty
signature. -/
theorem bulkTeleport_used_sig_rejected {env : Env}
    {sender token providerId amount timeoutSeconds : Nat} {σ : List Nat} {s : State}
    (hA : settleAuthorized s sender = false) (hused : s.usedSignatures σ = true) :
    errOf (bulkTeleport env sender token providerId amount timeoutSeconds σ s) ≠ none
    ∧ (σ ≠ [] → s.paused = false → (s.routes token providerId).set = true →
       env.recover (Msg.claim token providerId amount timeoutSeconds (s.nonces token providerId)
           env.chainid env.self) σ = some (s.routes token providerId).recipient →
       errOf (bulkTeleport env sender token providerId amount timeoutSeconds σ s)
         = some .signatureAlreadyUsed) := by
  constructor
  · intro hnone
    obtain ⟨r, hr⟩ := errOf_none hnone
    have hpair : bulkTeleport env sender token providerId amount timeoutSeconds σ s
        = .ok (r.1, r.2) := by rw [hr]
    obtain ⟨_, _, s1, hauth, _⟩ := bulkTeleport_ok_destruct hpair
    rcases bulkAuth_ok_cases hauth with ⟨hA', _⟩ | ⟨_, _, _, husedF, _⟩
    · rw [hA] at hA'
      exact Bool.noConfusion hA'
    · rw [hused] at husedF
      exact Bool.noConfusion husedF
  · intro hne hp hset hrec
    have hba : bulkAuth env sender token providerId amount timeoutSeconds σ
        (s.routes token providerId) s = .error .signatureAlreadyUsed := by
      simp [bulkAuth, hA, hne, hrec, hused]
    simp [bulkTeleport, hp, hset, hba, errOf]

/-! ## C2: signature replay protection -/

/-- C2 (counterexample): after account 44 consumes signature [7] in a
successful signature-authorized settlement, a subsequent settlement by
operator 33 presenting that very signature succeeds: the used-signature
check sits inside the non-authorized branch only, so the claim's
universal rejection fails. -/
theorem used_signature_reuse_by_operator_succeeds :
    settleAuthorized demoState 44 = false
    ∧ errOf (bulkTeleport demoEnv 44 100 5 5 60 [7] demoState) = none
    ∧ c2AfterFirst.usedSignatures [7] = true
    ∧ settleAuthorized c2AfterFirst 33 = true
    ∧ errOf (bulkTeleport demoEnv 33 100 5 5 60 [7] c2AfterFirst) = none :=
  ⟨by decide, rfl, by decide, by decide, rfl⟩

/-- C2 (amended): once a signature has been consumed by a successful
signature-authorized settlement, every later bulkTeleport that must rely
on signature authorization (caller holding neither Admin nor Operator
role) and presents that same signature is rejected, in every reachable
later state and for all parameter choices; the rejection is precisely
the replay error whenever the pause, route and signer-recovery checks
pass, the membership check thus coming before any consumption. -/
theorem used_signature_never_reauthorizes
    (env : Env) (c tk pid amt t : Nat) (σ : List Nat) (s₀ : State) (r : State × List Ev)
    (hrun : bulkTeleport env c tk pid amt t σ s₀ = .ok r)
    (hsig : settleAuthorized s₀ c = false)
    (s₂ : State) (hreach : Reach env r.1 s₂)
    (c₂ tk₂ pid₂ amt₂ t₂ : Nat) (hsig₂ : settleAuthorized s₂ c₂ = false) :
    errOf (bulkTeleport env c₂ tk₂ pid₂ amt₂ t₂ σ s₂) ≠ none
    ∧ (s₂.paused = false → (s₂.routes tk₂ pid₂).set = true →
       env.recover (Msg.claim tk₂ pid₂ amt₂ t₂ (s₂.nonces tk₂ pid₂) env.chainid env.self) σ
           = some (s₂.routes tk₂ pid₂).recipient →
       errOf (bulkTeleport env c₂ tk₂ pid₂ amt₂ t₂ σ s₂) = some .signatureAlreadyUsed) := by
  have hpair : bulkTeleport env c tk pid amt t σ s₀ = .ok (r.1, r.2) := by rw [hrun]
  obtain ⟨_, _, s1, hauth, hfin⟩ := bulkTeleport_ok_destruct hpair
  obtain ⟨_, _, _, _, _, _, hdis⟩ := bulkFinish_ok_shape hfin
  have hr1u : r.1.usedSignatures = s1.usedSignatures := by
    rcases hdis with ⟨_, hs', _⟩ | ⟨_, hs', _⟩ <;> rw [hs']
  rcases bulkAuth_ok_cases hauth with ⟨hA', _⟩ | ⟨_, hne, _, _, hs1⟩
  · rw [hsig] at hA'
    exact Bool.noConfusion hA'
  · have hs1u : s1.usedSignatures σ = true := by
      rw [hs1]
      simp [upd1]
    have hr1 : r.1.usedSignatures σ = true := by rw [hr1u]; exact hs1u
    have hused₂ : s₂.usedSignatures σ = true := reach_used_mono hreach σ hr1
    obtain ⟨h1, h2⟩ := @bulkTeleport_used_sig_rejected env c₂ tk₂ pid₂ amt₂ t₂ σ s₂ hsig₂ hused₂
    exact ⟨h1, fun hp hset hrec => h2 hne hp hset hrec⟩

/-- C2 (witness): account 44 retries signature [7] immediately after
consuming it; the call is rejected with the replay error. -/
theorem used_signature_never_reauthorizes_witness :
    errOf (bulkTeleport demoEnv 44 100 5 5 60 [7] c2AfterFirst) ≠ none
    ∧ (c2AfterFirst.paused = false → (c2AfterFirst.routes 100 5).set = true →
       demoEnv.recover (Msg.claim 100 5 5 60 (c2AfterFirst.nonces 100 5)
           demoEnv.chainid demoEnv.self) [7]
           = some (c2AfterFirst.routes 100 5).recipient →
       errOf (bulkTeleport demoEnv 44 100 5 5 60 [7] c2AfterFirst)
         = some .signatureAlreadyUsed) :=
  used_signature_never_reauthorizes demoEnv 44 100 5 5 60 [7] demoState
    (runOp demoEnv (.bulkTeleport 44 100 5 5 60 [7]) demoState) rfl (by decide)
    c2AfterFirst Relation.ReflTransGen.refl 44 100 5 5 60 (by decide)

/-! ## C7: nonce lifecycle -/

/-- C7: the nonce of every key starts at zero at deployment, is bumped by
exactly one by each successful signature-authorized settlement of that
key, and is left unchanged by every other successful operation of the
contract, role-authorized settlements included. -/
theorem nonce_lifecycle (env : Env) (usdhAddr ownerAddr tk pid : Nat) :
    (initialState usdhAddr ownerAddr).nonces tk pid = 0
    ∧ ∀ op s s' evs, step env op s = .ok (s', evs) →
        s'.nonces tk pid = s.nonces tk pid + (if nonceBump op s tk pid then 1 else 0) :=
  ⟨rfl, fun _ _ _ _ h => (step_ok_frame h).2 tk pid⟩

/-- C7 (witness): the signature-authorized settlement by account 44 bumps
the nonce of key (100, 5) on the demo state by one. -/
theorem nonce_lifecycle_witness :
    (initialState 77 9).nonces 100 5 = 0
    ∧ (runOp demoEnv (.bulkTeleport 44 100 5 5 60 [7]) demoState).1.nonces 100 5
        = demoState.nonces 100 5
            + (if nonceBump (.bulkTeleport 44 100 5 5 60 [7]) demoState 100 5 then 1 else 0) :=
  ⟨(nonce_lifecycle demoEnv 77 9 100 5).1,
   (nonce_lifecycle demoEnv 77 9 100 5).2 (.bulkTeleport 44 100 5 5 60 [7]) demoState
     (runOp demoEnv (.bulkTeleport 44 100 5 5 60 [7]) demoState).1
     (runOp demoEnv (.bulkTeleport 44 100 5 5 60 [7]) demoState).2 rfl⟩

/-! ## C8: pause semantics -/

/-- C8: while the pause flag is set, every deposit and settlement call is
rejected with the pause error; the query surface is oblivious to the
pause flags; any sequence of user-facing attempts leaves the state
exactly as it was; the owner's unpause succeeds, clearing both flags; and
afterwards every operation behaves exactly as if the paused attempts had
never been made. -/
theorem pause_blocks_user_ops (env : Env) (s : State) (hp : s.paused = true) :
    (∀ sender token amount providerId transferOk,
       errOf (postPayment sender token amount providerId transferOk s) = some .enforcedPause)
    ∧ (∀ sender token providerId amount timeoutSeconds signature,
       errOf (bulkTeleport env sender token providerId amount timeoutSeconds signature s)
         = some .enforcedPause)
    ∧ (∀ token providerId claimant,
        getAvailableCredits s token providerId = getAvailableCredits (unpausedTwin s) token providerId
        ∧ getNonce s token providerId = getNonce (unpausedTwin s) token providerId
        ∧ getRecipient s token providerId = getRecipient (unpausedTwin s) token providerId
        ∧ canClaim s token providerId claimant = canClaim (unpausedTwin s) token providerId claimant)
    ∧ (∀ ops : List Op, (∀ op ∈ ops, userOp op = true) → runTrace env ops s = s)
    ∧ unpause s.owner s = .ok (unpausedTwin s)
    ∧ (∀ ops : List Op, (∀ op ∈ ops, userOp op = true) →
        ∀ op', step env op' ((runOp env (.unpause s.owner) (runTrace env ops s)).1)
          = step env op' (unpausedTwin s)) := by
  have hpost : ∀ sender token amount providerId transferOk,
      errOf (postPayment sender token amount providerId transferOk s) = some .enforcedPause := by
    intro sender token amount providerId transferOk
    simp [postPayment, hp, errOf]
  have hbulk : ∀ sender token providerId amount timeoutSeconds signature,
      errOf (bulkTeleport env sender token providerId amount timeoutSeconds signature s)
        = some .enforcedPause := by
    intro sender token providerId amount timeoutSeconds signature
    simp [bulkTeleport, hp, errOf]
  have htrace : ∀ ops : List Op, (∀ op ∈ ops, userOp op = true) → runTrace env ops s = s := by
    intro ops hops
    induction ops with
    | nil => rfl
    | cons op rest ih =>
      have hop := hops op (List.mem_cons_self op rest)
      have hrest : ∀ o ∈ rest, userOp o = true := fun o ho => hops o (List.mem_cons_of_mem op ho)
      have hfix : (runOp env op s).1 = s := by
        cases op
        case postPayment sender token amount providerId transferOk =>
          have hcall : postPayment sender token amount providerId transferOk s
              = .error .enforcedPause := by
            simp [postPayment, hp]
          simp [runOp, step, liftS, hcall]
        case bulkTeleport sender token providerId amount timeoutSeconds signature =>
          have hcall : bulkTeleport env sender token providerId amount timeoutSeconds signature s
              = .error .enforcedPause := by
            simp [bulkTeleport, hp]
          simp [runOp, step, hcall]
        all_goals simp [userOp] at hop
      calc runTrace env (op :: rest) s
          = runTrace env rest (runOp env op s).1 := by simp [runTrace]
        _ = runTrace env rest s := by rw [hfix]
        _ = s := ih hrest
  have hunp : unpause s.owner s = .ok (unpausedTwin s) := by
    simp [unpause, hp, unpausedTwin]
  refine ⟨hpost, hbulk, fun _ _ _ => ⟨rfl, rfl, rfl, rfl⟩, htrace, hunp, ?_⟩
  intro ops hops op'
  rw [htrace ops hops]
  have hro : runOp env (.unpause s.owner) s = (unpausedTwin s, []) := by
    simp [runOp, step, liftS, hunp]
  rw [hro]

/-- C8 (witness): the paused demo deployment: both user operations are
rejected, queries are unchanged, two failed attempts leave the state
fixed, the owner unpauses, and a later call behaves as from the clean
unpaused state. -/
theorem pause_blocks_user_ops_witness :
    errOf (postPayment 44 100 5 5 true demoPaused) = some .enforcedPause
    ∧ errOf (bulkTeleport demoEnv 9 100 5 5 60 [] demoPaused) = some .enforcedPause
    ∧ getAvailableCredits demoPaused 100 5 = getAvailableCredits (unpausedTwin demoPaused) 100 5
    ∧ canClaim demoPaused 100 5 50 = canClaim (unpausedTwin demoPaused) 100 5 50
    ∧ runTrace demoEnv [.postPayment 44 100 5 5 true, .bulkTeleport 9 100 5 5 60 []] demoPaused
        = demoPaused
    ∧ unpause demoPaused.owner demoPaused = .ok (unpausedTwin demoPaused)
    ∧ step demoEnv (.bulkTeleport 9 100 5 5 60 [])
        ((runOp demoEnv (.unpause demoPaused.owner)
          (runTrace demoEnv [.postPayment 44 100 5 5 true, .bulkTeleport 9 100 5 5 60 []]
            demoPaused)).1)
      = step demoEnv (.bulkTeleport 9 100 5 5 60 []) (unpausedTwin demoPaused) :=
  ⟨(pause_blocks_user_ops demoEnv demoPaused rfl).1 44 100 5 5 true,
   (pause_blocks_user_ops demoEnv demoPaused rfl).2.1 9 100 5 5 60 [],
   ((pause_blocks_user_ops demoEnv demoPaused rfl).2.2.1 100 5 50).1,
   ((pause_blocks_user_ops demoEnv demoPaused rfl).2.2.1 100 5 50).2.2.2,
   (pause_blocks_user_ops demoEnv demoPaused rfl).2.2.2.1
     [.postPayment 44 100 5 5 true, .bulkTeleport 9 100 5 5 60 []] (by decide),
   (pause_blocks_user_ops demoEnv demoPaused rfl).2.2.2.2.1,
   (pause_blocks_user_ops demoEnv demoPaused rfl).2.2.2.2.2
     [.postPayment 44 100 5 5 true, .bulkTeleport 9 100 5 5 60 []] (by decide)
     (.bulkTeleport 9 100 5 5 60 [])⟩

/-! ## C9: setRoute authorization -/

/-- C9 (counterexample): the claim as stated fails in a paused state: the
very setRoute call that carries a valid recipient signature is rejected
with the pause error instead of succeeding. -/
theorem setRoute_valid_signature_fails_when_paused :
    routeAuthorized demoPaused 44 = false
      ∧ demoEnv.recover (Msg.route 100 5 11 [3] 50 demoEnv.chainid demoEnv.self) [9] = some 50
      ∧ errOf (setRoute demoEnv 44 100 5 11 [3] 50 [9] demoPaused) = some .enforcedPause := by
  refine ⟨by decide, by decide, rfl⟩

/-- C9 (amended): in an unpaused state and with valid arguments, a
setRoute call whose caller has neither the Admin role nor ownership fails
with an authorization error and changes nothing when no valid recipient
signature is supplied, and succeeds, writing the configured route, when
the supplied signature recovers to the stated recipient. -/
theorem setRoute_signature_authorization
    (env : Env) (sender token providerId assetId : Nat) (destChain : List Nat)
    (recipient : Nat) (signature : List Nat) (s : State)
    (hp : s.paused = false) (ht : token ≠ 0) (hr : recipient ≠ 0) (ha : assetId ≠ 0)
    (hd : destChain ≠ []) (hauth : routeAuthorized s sender = false) :
    ((signature = [] ∨
        env.recover (Msg.route token providerId assetId destChain recipient env.chainid env.self)
            signature ≠ some recipient) →
      authErr (errOf (setRoute env sender token providerId assetId destChain recipient signature s)) = true
      ∧ runOp env (.setRoute sender token providerId assetId destChain recipient signature) s = (s, []))
    ∧ (signature ≠ [] →
       env.recover (Msg.route token providerId assetId destChain recipient env.chainid env.self)
           signature = some recipient →
       setRoute env sender token providerId assetId destChain recipient signature s
         = .ok { s with routes := upd2 s.routes token providerId (mkRoute assetId destChain recipient) }) := by
  constructor
  · intro hbad
    by_cases hsig : signature = []
    · have hcall : setRoute env sender token providerId assetId destChain recipient signature s
          = .error .signatureRequired := by
        simp [setRoute, hp, ht, hr, ha, hd, hauth, hsig]
      exact ⟨by simp [hcall, errOf, authErr], by simp [runOp, step, liftS, hcall]⟩
    · have hbad2 : env.recover
          (Msg.route token providerId assetId destChain recipient env.chainid env.self) signature
            ≠ some recipient := by
        rcases hbad with hbad | hbad
        · exact absurd hbad hsig
        · exact hbad
      cases hrec : env.recover
          (Msg.route token providerId assetId destChain recipient env.chainid env.self) signature with
      | none =>
        have hcall : setRoute env sender token providerId assetId destChain recipient signature s
            = .error .invalidECDSASignature := by
          simp [setRoute, hp, ht, hr, ha, hd, hauth, hsig, hrec]
        exact ⟨by simp [hcall, errOf, authErr], by simp [runOp, step, liftS, hcall]⟩
      | some x =>
        have hx : x ≠ recipient := by
          intro hxe
          exact hbad2 (by rw [hrec, hxe])
        have hcall : setRoute env sender token providerId assetId destChain recipient signature s
            = .error .invalidSignatureFromRecipient := by
          simp [setRoute, hp, ht, hr, ha, hd, hauth, hsig, hrec, hx]
        exact ⟨by simp [hcall, errOf, authErr], by simp [runOp, step, liftS, hcall]⟩
  · intro hsig hrec
    simp [setRoute, hp, ht, hr, ha, hd, hauth, hsig, hrec]

/-- C9 (witness): account 44 (no role, not the owner) fails without a
signature and succeeds with the recipient signature [9] on the demo
state. -/
theorem setRoute_signature_authorization_witness :
    (authErr (errOf (setRoute demoEnv 44 100 5 11 [3] 50 [] demoState)) = true
      ∧ runOp demoEnv (.setRoute 44 100 5 11 [3] 50 []) demoState = (demoState, []))
    ∧ setRoute demoEnv 44 100 5 11 [3] 50 [9] demoState
        = .ok { demoState with routes := upd2 demoState.routes 100 5 (mkRoute 11 [3] 50) } :=
  ⟨(setRoute_signature_authorization demoEnv 44 100 5 11 [3] 50 [] demoState
      rfl (by decide) (by decide) (by decide) (by decide) (by decide)).1 (Or.inl rfl),
   (setRoute_signature_authorization demoEnv 44 100 5 11 [3] 50 [9] demoState
      rfl (by decide) (by decide) (by decide) (by decide) (by decide)).2 (by decide) (by decide)⟩

/-! ## C10: setRoute frame and idempotence -/

/-- C10: every successful setRoute call, signature-authorized ones
included, leaves the used-signature set and all nonces untouched, and the
identical call repeated from the resulting state succeeds again and
returns the very same state. -/
theorem setRoute_frame_idempotent
    (env : Env) (sender token providerId assetId : Nat) (destChain : List Nat)
    (recipient : Nat) (signature : List Nat) (s s' : State)
    (h : setRoute env sender token providerId assetId destChain recipient signature s = .ok s') :
    s'.usedSignatures = s.usedSignatures ∧ s'.nonces = s.nonces ∧
    setRoute env sender token providerId assetId destChain recipient signature s' = .ok s' := by
  obtain ⟨hp, ht, hr, ha, hd, hauthor, rfl⟩ := setRoute_ok_shape h
  have hupd : upd2 (upd2 s.routes token providerId (mkRoute assetId destChain recipient))
      token providerId (mkRoute assetId destChain recipient)
        = upd2 s.routes token providerId (mkRoute assetId destChain recipient) := by
    funext x y
    unfold upd2
    split <;> simp_all [upd2]
  refine ⟨rfl, rfl, ?_⟩
  rcases hauthor with hA | ⟨hsig, hrec⟩
  · simp only [routeAuthorized] at hA
    simp [setRoute, routeAuthorized, hp, ht, hr, ha, hd, hA, hupd]
  · by_cases hA : routeAuthorized s sender = true
    · simp only [routeAuthorized] at hA
      simp [setRoute, routeAuthorized, hp, ht, hr, ha, hd, hA, hupd]
    · have hA2 : (s.roles ADMIN_ROLE sender || decide (sender = s.owner)) = false := by
        simpa [routeAuthorized] using (Bool.not_eq_true _).mp hA
      simp [setRoute, routeAuthorized, hp, ht, hr, ha, hd, hA2, hsig, hrec, hupd]

/-- C10 (witness): the signature-authorized setRoute by account 44 on the
demo state, repeated. -/
theorem setRoute_frame_idempotent_witness :
    ((runOp demoEnv (.setRoute 44 100 5 11 [3] 50 [9]) demoState).1.usedSignatures
        = demoState.usedSignatures
      ∧ (runOp demoEnv (.setRoute 44 100 5 11 [3] 50 [9]) demoState).1.nonces = demoState.nonces
      ∧ setRoute demoEnv 44 100 5 11 [3] 50 [9]
          (runOp demoEnv (.setRoute 44 100 5 11 [3] 50 [9]) demoState).1
        = .ok (runOp demoEnv (.setRoute 44 100 5 11 [3] 50 [9]) demoState).1) :=
  setRoute_frame_idempotent demoEnv 44 100 5 11 [3] 50 [9] demoState
    (runOp demoEnv (.setRoute 44 100 5 11 [3] 50 [9]) demoState).1 rfl

end X402
